import Mathlib

/-!
Shallow embedding of the unclut-ai Chrome extension sources
(`background.js`, `contentScript.js`, the actions module, `gmailUtils.js`,
`popup.js`) and proofs about the behaviours the specification describes.

JavaScript values are modelled as follows: possibly-null strings become
`Option String`; JavaScript string truthiness (`null` and `""` are falsy)
is made explicit at each use site; timers are recorded as delay data;
promise resolution/rejection becomes `Except`; DOM/console side effects
become explicit effect lists or state records.
-/

namespace Unclut

/-- Model of JavaScript `String.prototype.trim`: strips leading and trailing
whitespace. -/
def jsTrim (s : String) : String :=
  String.mk (((s.data.dropWhile Char.isWhitespace).reverse.dropWhile
    Char.isWhitespace).reverse)

/-- Model of JavaScript `v || dflt` on a possibly-null string: `null` and the
empty string are falsy. -/
def jsStringOr (v : Option String) (dflt : String) : String :=
  match v with
  | some s => if s = "" then dflt else s
  | none => dflt

/-- Longest prefix of decimal digits, used by the `parseInt` model. -/
def leadingDigits : List Char → List Char
  | [] => []
  | c :: cs => if c.isDigit then c :: leadingDigits cs else []

/-- Numeric value of a list of decimal digits. -/
def digitsToNat (ds : List Char) : Nat :=
  ds.foldl (fun acc c => acc * 10 + (c.toNat - '0'.toNat)) 0

/-- Helper for `parseInt`: parse the digit prefix after an optional sign. -/
def parseIntFrom (neg : Bool) (cs : List Char) : Option Int :=
  let ds := leadingDigits cs
  if ds.isEmpty then none
  else some ((if neg then -1 else 1) * (digitsToNat ds : Int))

/-- Model of JavaScript `parseInt(s, 10)`: skip leading whitespace, read an
optional sign and the longest digit prefix; `none` models `NaN`. -/
def parseInt (s : String) : Option Int :=
  match s.data.dropWhile Char.isWhitespace with
  | '-' :: rest => parseIntFrom true rest
  | '+' :: rest => parseIntFrom false rest
  | cs => parseIntFrom false cs

namespace Background

/-- Result object produced by the background stubs (`background.js`
`processUnsubscribe` / `processDelete`): `success`, `message`, `timestamp`
(the `new Date().toISOString()` value, passed in as `now`), and the optional
`count` field. -/
structure ProcessResult where
  success : Bool
  message : String
  timestamp : String
  count : Option Nat
deriving Repr, DecidableEq

/-- One stub call: the `setTimeout` delay it awaits, the list of Gmail API
calls it performs, and its promise outcome (`Except.error` = rejection). -/
structure StubCall where
  delayMs : Nat
  apiCalls : List String
  result : Except String ProcessResult
deriving Repr

/-- `background.js` `processUnsubscribe`: awaits a fixed 1000 ms timer, calls
no Gmail API, and resolves with a canned success object. -/
def processUnsubscribe (now senderEmail : String) : StubCall :=
  { delayMs := 1000
    apiCalls := []
    result := .ok
      { success := true
        message := "Successfully unsubscribed from " ++ senderEmail
        timestamp := now
        count := none } }

/-- `background.js` `processDelete`: awaits a fixed 1000 ms timer, calls no
Gmail API, and resolves with a canned success object carrying the simulated
count 42. -/
def processDelete (now senderEmail : String) : StubCall :=
  { delayMs := 1000
    apiCalls := []
    result := .ok
      { success := true
        message := "Successfully deleted emails from " ++ senderEmail
        timestamp := now
        count := some 42 } }

/-- `background.js` `ensureAuthenticated`: succeeds when the token fetch
succeeds (`authOk`), otherwise throws the fixed authentication error. -/
def ensureAuthenticated (authOk : Bool) : Except String Bool :=
  if authOk then .ok true
  else .error "Authentication required. Please sign in to continue."

/-- Value returned by `background.js` `handleAction`: a single stub result for
`unsubscribe` / `delete`, or the `{ unsubResult, deleteResult }` object the
`both` branch builds from its `Promise.all`. -/
inductive HandleResult where
  | single (r : ProcessResult)
  | bothResult (unsubResult deleteResult : ProcessResult)
deriving Repr, DecidableEq

/-- `background.js` `handleAction`: ensure authentication, then dispatch on
the action string; the `both` branch joins `processUnsubscribe` and
`processDelete` with `Promise.all` and returns both results; unknown actions
throw. -/
def handleAction (authOk : Bool) (now senderEmail action : String) :
    Except String HandleResult := do
  let _ ← ensureAuthenticated authOk
  match action with
  | "unsubscribe" => do
    let r ← (processUnsubscribe now senderEmail).result
    pure (HandleResult.single r)
  | "delete" => do
    let r ← (processDelete now senderEmail).result
    pure (HandleResult.single r)
  | "both" => do
    let u ← (processUnsubscribe now senderEmail).result
    let d ← (processDelete now senderEmail).result
    pure (HandleResult.bothResult u d)
  | _ => throw ("Unknown action: " ++ action)

/-- Response object sent back by the `chrome.runtime.onMessage` listener in
`background.js`. -/
structure BgResponse where
  success : Bool
  data : Option HandleResult
  error : Option String
deriving Repr, DecidableEq

/-- The `chrome.runtime.onMessage` listener in `background.js`: on a
`processAction` message it runs `handleAction` and replies
`{ success: true, data }` on fulfilment or `{ success: false, error }` on
rejection; other message types get no response (`none`). -/
def onMessageListener (authOk : Bool) (now msgType senderEmail action : String) :
    Option BgResponse :=
  if msgType = "processAction" then
    some (match handleAction authOk now senderEmail action with
      | .ok r => { success := true, data := some r, error := none }
      | .error e => { success := false, data := none, error := some e })
  else
    none

end Background

namespace Actions

/-- Result object of the actions module (`unsubscribe` / `deleteEmails`). -/
structure ActionResult where
  success : Bool
  message : String
  count : Option Nat
deriving Repr, DecidableEq

/-- Actions-module `unsubscribe`: a stub that resolves with a canned success
object (the Gmail API call is a TODO). -/
def unsubscribe (senderEmail : String) : ActionResult :=
  { success := true
    message := "Unsubscribed from " ++ senderEmail
    count := none }

/-- Actions-module `deleteEmails`: a stub that resolves with a canned success
object and count 0. -/
def deleteEmails (senderEmail : String) : ActionResult :=
  { success := true
    message := "Deleted emails from " ++ senderEmail
    count := some 0 }

/-- Combined result of the actions-module `unsubscribeAndDelete`. -/
structure CombinedResult where
  success : Bool
  unsubResult : ActionResult
  deleteResult : ActionResult
deriving Repr, DecidableEq

/-- Actions-module `unsubscribeAndDelete`: `Promise.all` of the two stubs;
`success` is the conjunction of the two sub-results' `success` flags. -/
def unsubscribeAndDelete (senderEmail : String) : CombinedResult :=
  let u := unsubscribe senderEmail
  let d := deleteEmails senderEmail
  { success := u.success && d.success
    unsubResult := u
    deleteResult := d }

end Actions

namespace GmailUtils

/-- The `[name]` element of a message row: the selector guarantees the `name`
attribute is present; `textContent` of an element is a (possibly empty)
string. -/
structure NameEl where
  nameAttr : String
  textContent : String
deriving Repr, DecidableEq

/-- A Gmail message row as `gmailUtils.js` sees it: `emailEl` is the result of
`row.querySelector('[email]')` together with its `email` attribute (the
selector guarantees the attribute exists), `nameEl` likewise for
`row.querySelector('[name]')`. -/
structure MsgRow where
  emailEl : Option String
  nameEl : Option NameEl
deriving Repr, DecidableEq

/-- `gmailUtils.js` `getSenderEmail`: the `email` attribute of the `[email]`
element when present, else the `name` attribute of the `[name]` element,
else `null`. -/
def getSenderEmail (row : MsgRow) : Option String :=
  match row.emailEl with
  | some emailAttr => some emailAttr
  | none =>
    match row.nameEl with
    | some ne => some ne.nameAttr
    | none => none

/-- `gmailUtils.js` `getSenderDisplayName`: the trimmed `textContent` of the
`[name]` element when that element exists and its `textContent` is truthy
(non-empty); otherwise `getSenderEmail(row) || 'Unknown Sender'`. -/
def getSenderDisplayName (row : MsgRow) : String :=
  match row.nameEl with
  | some ne =>
    if ne.textContent ≠ "" then jsTrim ne.textContent
    else jsStringOr (getSenderEmail row) "Unknown Sender"
  | none => jsStringOr (getSenderEmail row) "Unknown Sender"

end GmailUtils

namespace Popup

/-- A value stored in the settings record (`chrome.storage.sync`). -/
inductive SettingValue where
  | str (s : String)
  | int (n : Int)
  | bool (b : Bool)
deriving Repr, DecidableEq

/-- `popup.js` `DEFAULT_SETTINGS`. -/
def DEFAULT_SETTINGS : List (String × SettingValue) :=
  [("defaultAction", .str "both"), ("maxEmails", .int 100),
   ("showConfirmation", .bool true), ("theme", .str "light")]

/-- `chrome.storage.sync.get(defaults, cb)`: for each key of `defaults` the
callback receives the stored value when present, else the default. -/
def storageGet (defaults storage : List (String × SettingValue)) :
    List (String × SettingValue) :=
  defaults.map (fun kv => (kv.1, (List.lookup kv.1 storage).getD kv.2))

/-- `popup.js` `loadSettings`: retrieves the settings record with
`DEFAULT_SETTINGS` as the fallback for missing keys. -/
def loadSettings (storage : List (String × SettingValue)) :
    List (String × SettingValue) :=
  storageGet DEFAULT_SETTINGS storage

/-- `popup.js` `saveSettings`: the record written to `chrome.storage.sync`,
built from the form fields; `maxEmails` is `parseInt(value, 10) || 100`
(`NaN` and `0` are falsy), and `lastUpdated` is the current ISO time. -/
def saveSettings (actionTypeValue maxEmailsValue : String)
    (showConfirmationChecked : Bool) (nowIso : String) :
    List (String × SettingValue) :=
  [("defaultAction", .str actionTypeValue),
   ("maxEmails", .int (match parseInt maxEmailsValue with
      | some n => if n = 0 then 100 else n
      | none => 100)),
   ("showConfirmation", .bool showConfirmationChecked),
   ("lastUpdated", .str nowIso)]

/-- Events the popup page wires handlers to in `popup.js`. -/
inductive PopupEvent where
  | domContentLoaded
  | saveClick
  | keypress (key : String)
  | helpClick
  | manageAccountClick
deriving Repr, DecidableEq

/-- Storage-facing operation a popup event triggers. -/
inductive PopupOp where
  | loadOp
  | saveOp
  | openTab (url : String)
  | openOptions
  | noOp
deriving Repr, DecidableEq

/-- Event wiring of `popup.js`: `DOMContentLoaded` loads, the save-button
click saves, a keypress saves exactly when the key is Enter, the help link
opens a tab, the manage-account link opens the options page. -/
def popupDispatch : PopupEvent → PopupOp
  | .domContentLoaded => .loadOp
  | .saveClick => .saveOp
  | .keypress k => if k = "Enter" then .saveOp else .noOp
  | .helpClick => .openTab "https://github.com/yourusername/unclut-ai#readme"
  | .manageAccountClick => .openOptions

end Popup

namespace ContentScript

/-- `contentScript.js`: `this.maxRetries = 5`. -/
def maxRetries : Nat := 5

/-- `contentScript.js` `retryInitialization`, as a function of the current
retry count: when the count is below `maxRetries` it increments the count and
schedules another `init` attempt after `min(1000 * 2^count, 30000)` ms
(returned as `some delay`); otherwise it gives up (`none`). -/
def retryInitialization (retryCount : Nat) : Nat × Option Nat :=
  if retryCount < maxRetries then
    (retryCount + 1, some (min (1000 * 2 ^ (retryCount + 1)) 30000))
  else (retryCount, none)

/-- Retry count after `k` failed attempts, starting from the constructor's
`this.retryCount = 0` and applying `retryInitialization` at each failure. -/
def retryLoop : Nat → Nat
  | 0 => 0
  | k + 1 => (retryInitialization (retryLoop k)).1

/-- How the `waitForGmailContainer` promise got resolved. -/
inductive WaitOutcome where
  | immediate
  | viaMutation
  | viaTimeout
deriving Repr, DecidableEq

/-- State of one `waitForGmailContainer` call: whether its mutation observer
is still attached, whether its fallback timeout is still pending, whether the
promise was rejected, and how (if at all) it was resolved. -/
structure WaitState where
  observerAttached : Bool
  timeoutPending : Bool
  rejected : Bool
  resolvedBy : Option WaitOutcome
deriving Repr, DecidableEq

/-- The `cleanup` closure of `waitForGmailContainer`: disconnect the observer
and clear the timeout. -/
def waitCleanup (s : WaitState) : WaitState :=
  { s with observerAttached := false, timeoutPending := false }

/-- The mutation-observer callback of `waitForGmailContainer`: once resolved
the observer has been disconnected so the callback is inert; otherwise, when
`isGmailReady()` now holds, it cleans up and resolves. -/
def onMutation (ready : Bool) (s : WaitState) : WaitState :=
  if s.resolvedBy.isSome then s
  else if ready then { waitCleanup s with resolvedBy := some .viaMutation }
  else s

/-- The 10-second fallback timeout callback of `waitForGmailContainer`: if the
promise is already resolved the timeout was cleared and nothing happens;
otherwise it cleans up and resolves. -/
def onTimeout (s : WaitState) : WaitState :=
  if s.resolvedBy.isSome then s
  else { waitCleanup s with resolvedBy := some .viaTimeout }

/-- State right after `waitForGmailContainer` installs its observer and
fallback timeout. -/
def waitStart : WaitState :=
  { observerAttached := true, timeoutPending := true, rejected := false,
    resolvedBy := none }

/-- `contentScript.js` `waitForGmailContainer`, run over an event trace:
`readyNow` is the immediate `isGmailReady()` check, `mutationReadiness` the
readiness value seen by each observer callback that fires before the 10 s
fallback, which fires last. The executor never calls `reject` (it binds only
`resolve`). -/
def waitForGmailContainer (readyNow : Bool) (mutationReadiness : List Bool) :
    WaitState :=
  if readyNow then
    { observerAttached := false, timeoutPending := false, rejected := false,
      resolvedBy := some .immediate }
  else
    onTimeout (mutationReadiness.foldl (fun s m => onMutation m s) waitStart)

/-- A Gmail inbox row as `injectButtons` sees it: the `unclut-processed`
marker class, presence of the sender cell
(`td[data-thread-id] span[email]`), its `email` attribute (`none` = null),
and how many unclut trigger buttons have been inserted next to it. -/
structure EmailRow where
  processed : Bool
  hasSenderCell : Bool
  senderEmail : Option String
  triggerCount : Nat
deriving Repr, DecidableEq

/-- Per-row body of `contentScript.js` `injectButtons`: rows carrying
`unclut-processed` are excluded by the selector (and re-checked inside);
rows without a sender cell or with a falsy `email` attribute are skipped
unmarked; otherwise one trigger button is inserted and the row is marked
`unclut-processed`. -/
def injectButtonsRow (row : EmailRow) : EmailRow :=
  if row.processed then row
  else if !row.hasSenderCell then row
  else
    match row.senderEmail with
    | none => row
    | some e =>
      if e = "" then row
      else { row with triggerCount := row.triggerCount + 1, processed := true }

/-- `contentScript.js` `injectButtons` over the whole document, modelled as
the list of inbox rows. -/
def injectButtons (doc : List EmailRow) : List EmailRow :=
  doc.map injectButtonsRow

/-- The label/action pairs of the three injected menu buttons. -/
def injectedActions : List (String × String) :=
  [("Unsubscribe", "unsubscribe"), ("Delete All", "delete"),
   ("Unsubscribe + Delete", "both")]

/-- Observable side effects of the content script. -/
inductive Effect where
  | consoleLog (msg : String)
  | consoleError (label detail : String)
  | toast (message : String) (showUndo : Bool) (isSuccess : Bool)
  | sendMessage (msgType senderEmail action : String)
deriving Repr, DecidableEq

/-- `contentScript.js` `handleAction` (the click handler body), as its effect
trace: log, show the processing toast, send the `processAction` runtime
message, then show the success toast when the send resolves or log the error
and show the failure toast when it rejects. -/
def handleAction (senderEmail action : String)
    (sendOutcome : Except String Background.BgResponse) : List Effect :=
  [Effect.consoleLog ("Action: " ++ action ++ " for " ++ senderEmail),
   Effect.toast ("Processing " ++ action ++ " for " ++ senderEmail ++ "...")
     true true,
   Effect.sendMessage "processAction" senderEmail action] ++
  match sendOutcome with
  | .ok _ =>
    [Effect.toast ("Successfully processed " ++ action ++ " for " ++ senderEmail)
      false true]
  | .error e =>
    [Effect.consoleError "Error processing action:" e,
     Effect.toast ("Failed to process " ++ action ++ " for " ++ senderEmail)
       false false]

end ContentScript

/-! Helper lemmas -/

theorem retryLoop_eq (k : Nat) : ContentScript.retryLoop k = min k 5 := by
  induction k with
  | zero => rfl
  | succ n ih =>
    show (ContentScript.retryInitialization (ContentScript.retryLoop n)).1 =
      min (n + 1) 5
    rw [ih]
    by_cases h : n < 5
    · simp [ContentScript.retryInitialization, ContentScript.maxRetries,
        Nat.min_eq_left (Nat.le_of_lt h), h]
      omega
    · have hm : min n 5 = 5 := by omega
      simp [ContentScript.retryInitialization, ContentScript.maxRetries, hm]
      omega

theorem injectButtonsRow_processed (r : ContentScript.EmailRow)
    (h : r.processed = true) : ContentScript.injectButtonsRow r = r := by
  simp [ContentScript.injectButtonsRow, h]

theorem injectButtonsRow_cases (r : ContentScript.EmailRow) :
    ContentScript.injectButtonsRow r = r ∨
      ContentScript.injectButtonsRow r =
        { r with triggerCount := r.triggerCount + 1, processed := true } := by
  unfold ContentScript.injectButtonsRow
  by_cases hp : r.processed = true
  · simp [hp]
  · simp [hp]
    by_cases hc : r.hasSenderCell = true
    · simp [hc]
      cases hse : r.senderEmail with
      | none => simp
      | some e =>
        by_cases he : e = "" <;> simp [he]
    · simp [hc]

theorem injectButtonsRow_idem (r : ContentScript.EmailRow) :
    ContentScript.injectButtonsRow (ContentScript.injectButtonsRow r) =
      ContentScript.injectButtonsRow r := by
  rcases injectButtonsRow_cases r with h | h
  · rw [h, h]
  · rw [h]
    exact injectButtonsRow_processed _ rfl

theorem injectButtonsRow_iterate_processed (n : Nat)
    (r : ContentScript.EmailRow) (h : r.processed = true) :
    ContentScript.injectButtonsRow^[n] r = r := by
  induction n with
  | zero => rfl
  | succ m ih =>
    rw [Function.iterate_succ_apply, injectButtonsRow_processed r h, ih]

theorem iterate_triggerCount (n : Nat) (r : ContentScript.EmailRow)
    (h : r.triggerCount = 0) :
    (ContentScript.injectButtonsRow^[n] r).triggerCount ≤ 1 := by
  induction n generalizing r with
  | zero => simp [h]
  | succ m ih =>
    rw [Function.iterate_succ_apply]
    rcases injectButtonsRow_cases r with hr | hr
    · rw [hr]
      exact ih r h
    · rw [hr, injectButtonsRow_iterate_processed m _ rfl]
      simp [h]

theorem foldl_onMutation_resolved (ms : List Bool) (s : ContentScript.WaitState)
    (h : s.resolvedBy.isSome) :
    ms.foldl (fun st m => ContentScript.onMutation m st) s = s := by
  induction ms with
  | nil => rfl
  | cons m ms ih =>
    rw [List.foldl_cons]
    have : ContentScript.onMutation m s = s := by
      simp [ContentScript.onMutation, h]
    rw [this, ih]

theorem foldl_onMutation_from_start (ms : List Bool) :
    ms.foldl (fun s m => ContentScript.onMutation m s) ContentScript.waitStart =
      (if ms.any id then
        { observerAttached := false, timeoutPending := false, rejected := false,
          resolvedBy := some .viaMutation }
      else ContentScript.waitStart) := by
  induction ms with
  | nil => rfl
  | cons m ms ih =>
    rw [List.foldl_cons]
    cases m with
    | true =>
      have h1 : ContentScript.onMutation true ContentScript.waitStart =
          { observerAttached := false, timeoutPending := false,
            rejected := false, resolvedBy := some .viaMutation } := rfl
      rw [h1, foldl_onMutation_resolved ms
        { observerAttached := false, timeoutPending := false,
          rejected := false, resolvedBy := some .viaMutation } rfl]
      simp
    | false =>
      have h1 : ContentScript.onMutation false ContentScript.waitStart =
          ContentScript.waitStart := rfl
      rw [h1, ih]
      simp

theorem jsStringOr_ne_empty (v : Option String) :
    jsStringOr v "Unknown Sender" ≠ "" := by
  cases v with
  | none => decide
  | some s =>
    by_cases h : s = "" <;> simp [jsStringOr, h]

theorem jsStringOr_spec (v : Option String) (d : String) :
    (∃ e, v = some e ∧ e ≠ "" ∧ jsStringOr v d = e) ∨ jsStringOr v d = d := by
  cases v with
  | none => right; rfl
  | some s =>
    by_cases h : s = ""
    · right
      simp [jsStringOr, h]
    · left
      exact ⟨s, rfl, h, by simp [jsStringOr, h]⟩

/-! Claim theorems -/

/-- C1: initialization retry is a bounded backoff loop: `retryInitialization`
schedules another attempt exactly while the retry count is below the ceiling
5, the delay before retry number `k + 1` is `min(1000 * 2^(k+1), 30000)` ms,
the count after `k` failed attempts is `k` capped at 5, and once 5 retries
have failed no further attempt is ever scheduled. -/
theorem retryInitialization_bounded_backoff :
    ∀ k : Nat,
      (ContentScript.retryInitialization k).2 =
        (if k < 5 then some (min (1000 * 2 ^ (k + 1)) 30000) else none) ∧
      ContentScript.retryLoop k = min k 5 ∧
      (ContentScript.retryInitialization (ContentScript.retryLoop (5 + k))).2 =
        none := by
  intro k
  refine ⟨?_, retryLoop_eq k, ?_⟩
  · by_cases h : k < 5 <;>
      simp [ContentScript.retryInitialization, ContentScript.maxRetries, h]
  · rw [retryLoop_eq]
    have hm : min (5 + k) 5 = 5 := by omega
    rw [hm]
    rfl

/-- C2: the unsubscribe and delete actions are placeholder stubs: for every
sender, `processUnsubscribe` resolves (never rejects) after a fixed 1000 ms
timer with `success: true` and a message naming the sender, `processDelete`
resolves after the same fixed 1000 ms timer with `success: true` and the
constant count 42, and neither performs any Gmail API call. -/
theorem stub_actions_canned_success :
    ∀ (now senderEmail : String),
      Background.processUnsubscribe now senderEmail =
        { delayMs := 1000
          apiCalls := []
          result := .ok
            { success := true
              message := "Successfully unsubscribed from " ++ senderEmail
              timestamp := now
              count := none } } ∧
      Background.processDelete now senderEmail =
        { delayMs := 1000
          apiCalls := []
          result := .ok
            { success := true
              message := "Successfully deleted emails from " ++ senderEmail
              timestamp := now
              count := some 42 } } := by
  intro now senderEmail
  exact ⟨rfl, rfl⟩

/-- C3 (amended): the defaults record and the record `loadSettings` retrieves
as a whole have exactly the fields defaultAction, maxEmails,
showConfirmation, theme; but the record written on save has exactly the
fields defaultAction, maxEmails, showConfirmation, lastUpdated (theme is
never written), and besides the save-button click the Enter key also saves,
while DOMContentLoaded loads. -/
theorem settings_record_lifecycle :
    ∀ (storage : List (String × Popup.SettingValue))
      (a v now : String) (conf : Bool),
      (Popup.loadSettings storage).map Prod.fst =
        ["defaultAction", "maxEmails", "showConfirmation", "theme"] ∧
      (Popup.saveSettings a v conf now).map Prod.fst =
        ["defaultAction", "maxEmails", "showConfirmation", "lastUpdated"] ∧
      Popup.popupDispatch .domContentLoaded = .loadOp ∧
      Popup.popupDispatch .saveClick = .saveOp ∧
      (∀ k, Popup.popupDispatch (.keypress k) =
        if k = "Enter" then .saveOp else .noOp) := by
  intro storage a v now conf
  exact ⟨rfl, rfl, rfl, rfl, fun k => rfl⟩

/-- C3 counterexample: the record written by `saveSettings` does not have the
field set the claim states — it lacks theme and carries lastUpdated — and the
Enter key is a further lifecycle event that writes the record. -/
theorem settings_record_fields_counterexample :
    (Popup.saveSettings "both" "50" true "2025-01-01T00:00:00.000Z").map
        Prod.fst ≠
      ["defaultAction", "maxEmails", "showConfirmation", "theme"] ∧
    "theme" ∉ (Popup.saveSettings "both" "50" true
        "2025-01-01T00:00:00.000Z").map Prod.fst ∧
    "lastUpdated" ∈ (Popup.saveSettings "both" "50" true
        "2025-01-01T00:00:00.000Z").map Prod.fst ∧
    Popup.popupDispatch (.keypress "Enter") = .saveOp := by
  refine ⟨by decide, by decide, by decide, rfl⟩

/-- C4: for every sender, the `both` branch of the background `handleAction`
is exactly the `Promise.all` join of the two stubs packaged as
`{ unsubResult, deleteResult }`, evaluating to both canned successes; and the
actions-module `unsubscribeAndDelete` combines its two stub results with
`success` true exactly when both sub-results have `success` true. -/
theorem handleAction_both_joins_stubs :
    ∀ (now s : String),
      Background.handleAction true now s "both" =
        (do
          let u ← (Background.processUnsubscribe now s).result
          let d ← (Background.processDelete now s).result
          pure (Background.HandleResult.bothResult u d) :
          Except String Background.HandleResult) ∧
      Background.handleAction true now s "both" =
        .ok (.bothResult
          { success := true
            message := "Successfully unsubscribed from " ++ s
            timestamp := now
            count := none }
          { success := true
            message := "Successfully deleted emails from " ++ s
            timestamp := now
            count := some 42 }) ∧
      (Actions.unsubscribeAndDelete s).unsubResult = Actions.unsubscribe s ∧
      (Actions.unsubscribeAndDelete s).deleteResult = Actions.deleteEmails s ∧
      (Actions.unsubscribeAndDelete s).success =
        ((Actions.unsubscribeAndDelete s).unsubResult.success &&
          (Actions.unsubscribeAndDelete s).deleteResult.success) := by
  intro now s
  exact ⟨rfl, rfl, rfl, rfl, rfl⟩

/-- C5: when the `processAction` message send rejects, the content script's
`handleAction` logs the error to the console and shows the generic failure
toast (and performs no further send or retry — its effect trace is exactly
the five listed effects); and whenever the background `handleAction` rejects,
the message listener replies with `success: false` and the error message. -/
theorem action_error_logged_and_toasted :
    ∀ (s a e now : String) (authOk : Bool),
      ContentScript.handleAction s a (.error e) =
        [ContentScript.Effect.consoleLog ("Action: " ++ a ++ " for " ++ s),
         ContentScript.Effect.toast
           ("Processing " ++ a ++ " for " ++ s ++ "...") true true,
         ContentScript.Effect.sendMessage "processAction" s a,
         ContentScript.Effect.consoleError "Error processing action:" e,
         ContentScript.Effect.toast
           ("Failed to process " ++ a ++ " for " ++ s) false false] ∧
      (∀ msg, Background.handleAction authOk now s a = .error msg →
        Background.onMessageListener authOk now "processAction" s a =
          some { success := false, data := none, error := some msg }) := by
  intro s a e now authOk
  refine ⟨rfl, fun msg h => ?_⟩
  simp [Background.onMessageListener, h]

/-- C5 witness: with authentication failing on a concrete message, the
listener replies `success: false` carrying the error message. -/
theorem action_error_reply_witness :
    Background.onMessageListener false "2025-01-01T00:00:00.000Z"
        "processAction" "news@example.com" "unsubscribe" =
      some { success := false, data := none,
             error := some "Authentication required. Please sign in to continue." } :=
  (action_error_logged_and_toasted "news@example.com" "unsubscribe"
      "disconnected" "2025-01-01T00:00:00.000Z" false).2
    "Authentication required. Please sign in to continue." rfl

/-- C6: `loadSettings` retrieves every settings key with `DEFAULT_SETTINGS`
(defaultAction both, maxEmails 100, showConfirmation true, theme light) as
the fallback for missing keys — for each default key the loaded value is the
stored one when present, else the default — and `saveSettings` stores
maxEmails 100 whenever the input does not parse to a nonzero integer. -/
theorem settings_defaults_and_maxEmails_fallback :
    ∀ (storage : List (String × Popup.SettingValue))
      (a v now : String) (conf : Bool),
      Popup.DEFAULT_SETTINGS =
        [("defaultAction", .str "both"), ("maxEmails", .int 100),
         ("showConfirmation", .bool true), ("theme", .str "light")] ∧
      (∀ k d, (k, d) ∈ Popup.DEFAULT_SETTINGS →
        List.lookup k (Popup.loadSettings storage) =
          some ((List.lookup k storage).getD d)) ∧
      (parseInt v = none ∨ parseInt v = some 0 →
        List.lookup "maxEmails" (Popup.saveSettings a v conf now) =
          some (.int 100)) := by
  intro storage a v now conf
  refine ⟨rfl, ?_, ?_⟩
  · intro k d hmem
    simp [Popup.DEFAULT_SETTINGS] at hmem
    rcases hmem with ⟨rfl, rfl⟩ | ⟨rfl, rfl⟩ | ⟨rfl, rfl⟩ | ⟨rfl, rfl⟩ <;> rfl
  · intro h
    rcases h with h | h <;> simp [Popup.saveSettings, h, List.lookup]

/-- C6 witness: on empty storage the theme default light is retrieved, and a
non-numeric maxEmails input is saved as 100. -/
theorem settings_defaults_witness :
    List.lookup "theme"
        (Popup.loadSettings ([] : List (String × Popup.SettingValue))) =
      some (Popup.SettingValue.str "light") ∧
    List.lookup "maxEmails" (Popup.saveSettings "both" "oops" true "t") =
      some (Popup.SettingValue.int 100) :=
  ⟨(settings_defaults_and_maxEmails_fallback [] "both" "oops" "t" true).2.1
      "theme" (Popup.SettingValue.str "light") (by decide),
   (settings_defaults_and_maxEmails_fallback [] "both" "oops" "t" true).2.2
      (Or.inl rfl)⟩

/-- C7: the injected menu offers exactly the three label/action pairs, and
for every sender and action the click handler's trace shows the processing
toast, then sends the `processAction` runtime message carrying that sender
and action, and ends with the success toast when the send resolves or the
failure toast when it rejects. -/
theorem injected_click_message_and_toasts :
    ∀ (s a : String) (outcome : Except String Background.BgResponse),
      ContentScript.injectedActions =
        [("Unsubscribe", "unsubscribe"), ("Delete All", "delete"),
         ("Unsubscribe + Delete", "both")] ∧
      (ContentScript.handleAction s a outcome)[1]? =
        some (.toast ("Processing " ++ a ++ " for " ++ s ++ "...") true true) ∧
      (ContentScript.handleAction s a outcome)[2]? =
        some (.sendMessage "processAction" s a) ∧
      (ContentScript.handleAction s a outcome).getLast? =
        some (match outcome with
          | .ok _ =>
            .toast ("Successfully processed " ++ a ++ " for " ++ s) false true
          | .error _ =>
            .toast ("Failed to process " ++ a ++ " for " ++ s) false false) := by
  intro s a outcome
  cases outcome <;> exact ⟨rfl, rfl, rfl, rfl⟩

/-- C8: button injection is idempotent: running `injectButtons` again on an
already-processed document changes nothing, a row carrying the
unclut-processed class is left untouched, and starting from a row with no
trigger button any number of `injectButtons` passes inserts at most one. -/
theorem injectButtons_idempotent_processed :
    ∀ (doc : List ContentScript.EmailRow) (r : ContentScript.EmailRow)
      (n : Nat),
      ContentScript.injectButtons (ContentScript.injectButtons doc) =
        ContentScript.injectButtons doc ∧
      (r.processed = true → ContentScript.injectButtonsRow r = r) ∧
      (r.triggerCount = 0 →
        (ContentScript.injectButtonsRow^[n] r).triggerCount ≤ 1) := by
  intro doc r n
  refine ⟨?_, injectButtonsRow_processed r, iterate_triggerCount n r⟩
  unfold ContentScript.injectButtons
  rw [List.map_map]
  exact List.map_congr_left (fun x _ => injectButtonsRow_idem x)

/-- C8 witness: a fresh unprocessed row with a sender email gets at most one
trigger button across three injection passes. -/
theorem injectButtons_idempotent_witness :
    (ContentScript.injectButtonsRow^[3]
        { processed := false, hasSenderCell := true,
          senderEmail := some "news@example.com", triggerCount := 0 } :
      ContentScript.EmailRow).triggerCount ≤ 1 :=
  (injectButtons_idempotent_processed []
      { processed := false, hasSenderCell := true,
        senderEmail := some "news@example.com", triggerCount := 0 } 3).2.2 rfl

/-- C9: `waitForGmailContainer` always resolves and never rejects: it
resolves immediately when the readiness check passes, else via the first
readiness-reporting mutation, else via the 10-second fallback timeout; and on
every resolution path the observer is disconnected and the timeout
cleared. -/
theorem waitForGmailContainer_always_resolves :
    ∀ (readyNow : Bool) (mutationReadiness : List Bool),
      (ContentScript.waitForGmailContainer readyNow mutationReadiness).resolvedBy
          =
        some (if readyNow then .immediate
          else if mutationReadiness.any id then .viaMutation
          else .viaTimeout) ∧
      (ContentScript.waitForGmailContainer readyNow
        mutationReadiness).rejected = false ∧
      (ContentScript.waitForGmailContainer readyNow
        mutationReadiness).observerAttached = false ∧
      (ContentScript.waitForGmailContainer readyNow
        mutationReadiness).timeoutPending = false := by
  intro readyNow ms
  cases readyNow with
  | true =>
    exact ⟨rfl, rfl, rfl, rfl⟩
  | false =>
    have hw : ContentScript.waitForGmailContainer false ms =
        ContentScript.onTimeout
          (ms.foldl (fun s m => ContentScript.onMutation m s)
            ContentScript.waitStart) := rfl
    rw [hw, foldl_onMutation_from_start]
    by_cases ha : ms.any id = true
    · simp [ha, ContentScript.onTimeout]
    · simp [ha, ContentScript.onTimeout, ContentScript.waitStart,
        ContentScript.waitCleanup]

/-- C10 (amended): `getSenderDisplayName` never returns null and follows its
branch priority: whenever the name element is present with non-empty
textContent the result is that textContent trimmed — which is the empty
string when the textContent is whitespace-only — and otherwise (no name
element, or empty textContent) the result is the sender email whenever
`getSenderEmail` is non-null and non-empty, and Unknown Sender whenever it is
null or the empty string; the result is empty exactly in the whitespace-only
name case. -/
theorem getSenderDisplayName_empty_or_fallback :
    ∀ row : GmailUtils.MsgRow,
      (∀ ne, row.nameEl = some ne → ne.textContent ≠ "" →
        GmailUtils.getSenderDisplayName row = jsTrim ne.textContent) ∧
      ((row.nameEl = none ∨
          ∃ ne, row.nameEl = some ne ∧ ne.textContent = "") →
        (∀ e, GmailUtils.getSenderEmail row = some e → e ≠ "" →
          GmailUtils.getSenderDisplayName row = e) ∧
        ((GmailUtils.getSenderEmail row = none ∨
            GmailUtils.getSenderEmail row = some "") →
          GmailUtils.getSenderDisplayName row = "Unknown Sender")) ∧
      (GmailUtils.getSenderDisplayName row = "" ↔
        ∃ ne, row.nameEl = some ne ∧ ne.textContent ≠ "" ∧
          jsTrim ne.textContent = "") := by
  rintro ⟨emailEl, nameEl⟩
  cases nameEl with
  | none =>
    have hd : GmailUtils.getSenderDisplayName ⟨emailEl, none⟩ =
        jsStringOr (GmailUtils.getSenderEmail ⟨emailEl, none⟩)
          "Unknown Sender" := rfl
    refine ⟨?_, ?_, ?_⟩
    · rintro ne h -
      exact Option.noConfusion h
    · rintro -
      refine ⟨?_, ?_⟩
      · rintro e he hz
        rw [hd, he]
        simp [jsStringOr, hz]
      · rintro (he | he) <;> rw [hd, he] <;> simp [jsStringOr]
    · constructor
      · intro h
        rw [hd] at h
        exact absurd h (jsStringOr_ne_empty _)
      · rintro ⟨ne, h, -, -⟩
        exact Option.noConfusion h
  | some ne =>
    by_cases ht : ne.textContent = ""
    · have hd : GmailUtils.getSenderDisplayName ⟨emailEl, some ne⟩ =
          jsStringOr (GmailUtils.getSenderEmail ⟨emailEl, some ne⟩)
            "Unknown Sender" := by
        simp [GmailUtils.getSenderDisplayName, ht]
      refine ⟨?_, ?_, ?_⟩
      · rintro ne2 h2 ht2
        injection h2 with h2
        subst h2
        exact absurd ht ht2
      · rintro -
        refine ⟨?_, ?_⟩
        · rintro e he hz
          rw [hd, he]
          simp [jsStringOr, hz]
        · rintro (he | he) <;> rw [hd, he] <;> simp [jsStringOr]
      · constructor
        · intro h
          rw [hd] at h
          exact absurd h (jsStringOr_ne_empty _)
        · rintro ⟨ne2, h2, hnz, -⟩
          injection h2 with h2
          subst h2
          exact absurd ht hnz
    · have hd : GmailUtils.getSenderDisplayName ⟨emailEl, some ne⟩ =
          jsTrim ne.textContent := by
        simp [GmailUtils.getSenderDisplayName, ht]
      refine ⟨?_, ?_, ?_⟩
      · rintro ne2 h2 -
        injection h2 with h2
        subst h2
        exact hd
      · rintro (h | ⟨ne2, h2, ht2⟩)
        · exact Option.noConfusion h
        · injection h2 with h2
          subst h2
          exact absurd ht2 ht
      · constructor
        · intro h
          rw [hd] at h
          exact ⟨ne, rfl, ht, h⟩
        · rintro ⟨ne2, h2, -, htr⟩
          injection h2 with h2
          subst h2
          exact hd.trans htr

/-- C10 witness: with both a truthy name element and a non-empty email the
display name is the trimmed name text; with an empty name text it is the
email; with neither it is Unknown Sender. -/
theorem getSenderDisplayName_branch_witness :
    GmailUtils.getSenderDisplayName
        { emailEl := some "news@example.com",
          nameEl := some { nameAttr := "B", textContent := " Bob " } } =
      "Bob" ∧
    GmailUtils.getSenderDisplayName
        { emailEl := some "news@example.com",
          nameEl := some { nameAttr := "B", textContent := "" } } =
      "news@example.com" ∧
    GmailUtils.getSenderDisplayName { emailEl := none, nameEl := none } =
      "Unknown Sender" :=
  ⟨((getSenderDisplayName_empty_or_fallback
        { emailEl := some "news@example.com",
          nameEl := some { nameAttr := "B", textContent := " Bob " } }).1
      { nameAttr := "B", textContent := " Bob " } rfl (by decide)).trans
      (by decide),
   ((getSenderDisplayName_empty_or_fallback
        { emailEl := some "news@example.com",
          nameEl := some { nameAttr := "B", textContent := "" } }).2.1
      (Or.inr ⟨{ nameAttr := "B", textContent := "" }, rfl, rfl⟩)).1
      "news@example.com" rfl (by decide),
   ((getSenderDisplayName_empty_or_fallback
        { emailEl := none, nameEl := none }).2.1 (Or.inl rfl)).2
      (Or.inl rfl)⟩

/-- C10 counterexample: a row whose name element has whitespace-only (but
truthy) textContent makes `getSenderDisplayName` return the empty string; and
a row whose only sender datum is an empty email attribute yields Unknown
Sender although `getSenderEmail` is non-null. -/
theorem getSenderDisplayName_empty_counterexample :
    GmailUtils.getSenderDisplayName
        { emailEl := some "news@example.com",
          nameEl := some { nameAttr := "Newsletter", textContent := " " } } =
      "" ∧
    GmailUtils.getSenderEmail { emailEl := some "", nameEl := none } =
      some "" ∧
    GmailUtils.getSenderDisplayName { emailEl := some "", nameEl := none } =
      "Unknown Sender" := by
  refine ⟨by decide, rfl, by decide⟩

end Unclut
